import Mathlib

/-!
Shallow embedding of the drone-tracker frontend store and map-sync logic
(src/drone_tracker_frontend/src: droneStore in App.jsx bundle, MapboxMap.jsx).

JavaScript modelling conventions used throughout:
* `undefined` / absent fields are `Option.none`; JS `null` is also `none`
  where only one of the two can occur (noted locally otherwise).
* JS numbers are `Int` (timestamps `Nat`); `NaN` is not representable in
  this model, so `x || d` on numbers treats exactly `0` as falsy.
* JS strings are `String`; `s || d` treats exactly `""` as falsy.
* A JS `Map` is an insertion-ordered association list; `Map.get` is the
  first (unique) matching key, `Map.set` replaces in place or appends.
-/

/-- A JavaScript runtime value, as far as the classifier can observe it:
`typeof` and truthiness. `nanV` is the number `NaN` (typeof number, falsy);
`obj` stands for any object/array/function value (truthy, not a string). -/
inductive JSValue where
  | undefV
  | nullV
  | boolV (b : Bool)
  | num (n : Int)
  | nanV
  | str (s : String)
  | obj
  deriving DecidableEq, Repr

/-- JS truthiness of a value. -/
def JSValue.truthy : JSValue → Bool
  | .undefV => false
  | .nullV => false
  | .boolV b => b
  | .num n => n != 0
  | .nanV => false
  | .str s => s != ""
  | .obj => true

/-- `typeof v === 'string'`. -/
def JSValue.isString : JSValue → Bool
  | .str _ => true
  | _ => false

/-- `s.startsWith('B')`: the source's prefix test with its concrete
one-character prefix, i.e. the first character is `'B'`.
(`String.startsWith` itself is extensionally the same here but its
implementation does not reduce in the kernel.) -/
def startsWithB (s : String) : Bool :=
  match s.data with
  | [] => false
  | c :: _ => c = 'B'

/-- `DroneColorStrategy.getColor(registration)`:
`if (!registration || typeof registration !== 'string') return 'red';
 return registration.startsWith('B') ? 'green' : 'red';` -/
def DroneColorStrategy.getColor (registration : JSValue) : String :=
  if !registration.truthy || !registration.isString then "red"
  else match registration with
    | .str s => if startsWithB s then "green" else "red"
    | _ => "red"

/-- JS `a || b` for two possibly-undefined numbers (`0` falsy; `NaN` is not
modelled, see the header comment). -/
def jsOrNum (a b : Option Int) : Option Int :=
  match a with
  | some v => if v ≠ 0 then some v else b
  | none => b

/-- JS `a || d` for a possibly-undefined number against a present default. -/
def numD (a : Option Int) (d : Int) : Int :=
  match a with
  | some v => if v ≠ 0 then v else d
  | none => d

/-- JS `a || b` for two possibly-undefined strings (`""` falsy). -/
def jsOrStr (a b : Option String) : Option String :=
  match a with
  | some s => if s ≠ "" then some s else b
  | none => b

/-- JS `a || d` for a possibly-undefined string against a present default. -/
def strD (a : Option String) (d : String) : String :=
  match a with
  | some s => if s ≠ "" then s else d
  | none => d

/-- JS `a || b` on arbitrary values. -/
def jsOrVal (a b : JSValue) : JSValue :=
  if a.truthy then a else b

/-- `Map.get(k)` on an insertion-ordered association list. -/
def mapGet {α β : Type} [DecidableEq α] : List (α × β) → α → Option β
  | [], _ => none
  | (k, v) :: rest, q => if k = q then some v else mapGet rest q

/-- `Map.set(k, v)`: replace in place when the key exists, else append. -/
def mapSet {α β : Type} [DecidableEq α] : List (α × β) → α → β → List (α × β)
  | [], k, v => [(k, v)]
  | (k0, v0) :: rest, k, v =>
      if k0 = k then (k0, v) :: rest else (k0, v0) :: mapSet rest k v

/-- The object `{lat, lng, altitude}` carried by (or built for) a report;
each coordinate may be `undefined`. -/
structure Position where
  lat : Option Int := none
  lng : Option Int := none
  altitude : Option Int := none
  deriving DecidableEq, Repr

/-- A GeoJSON geometry: `coordinates` is `[lng, lat, alt?]`. -/
structure Geometry where
  coordinates : List Int
  deriving DecidableEq, Repr

/-- The `properties` bag of a GeoJSON feature report. -/
structure Properties where
  serial : Option String := none
  name : Option String := none
  status : Option String := none
  registration : JSValue := .undefV
  altitude : Option Int := none
  yaw : Option Int := none
  speed : Option Int := none
  battery : Option Int := none
  signal : Option Int := none
  deriving DecidableEq, Repr

/-- One raw incoming report, covering both shapes `updateDrones` accepts:
the flat mock-drone shape (top-level fields) and the GeoJSON feature shape
(`properties` / `geometry`). Absent fields are `none`. -/
structure Report where
  id : Option String := none
  name : Option String := none
  status : Option String := none
  color : Option String := none
  registration : JSValue := .undefV
  position : Option Position := none
  geometry : Option Geometry := none
  properties : Option Properties := none
  yaw : Option Int := none
  speed : Option Int := none
  battery : Option Int := none
  signal : Option Int := none
  lastUpdate : Option String := none
  deriving DecidableEq, Repr

/-- `drone.properties?.serial`. -/
def propSerial (r : Report) : Option String :=
  match r.properties with
  | some p => p.serial
  | none => none

/-- `drone.properties?.name`. -/
def propName (r : Report) : Option String :=
  match r.properties with
  | some p => p.name
  | none => none

/-- `drone.properties?.status`. -/
def propStatus (r : Report) : Option String :=
  match r.properties with
  | some p => p.status
  | none => none

/-- `drone.properties?.registration` (`undefined` when `properties` is). -/
def propRegistration (r : Report) : JSValue :=
  match r.properties with
  | some p => p.registration
  | none => .undefV

/-- `drone.properties?.altitude`. -/
def propAltitude (r : Report) : Option Int :=
  match r.properties with
  | some p => p.altitude
  | none => none

/-- `drone.properties?.yaw`. -/
def propYaw (r : Report) : Option Int :=
  match r.properties with
  | some p => p.yaw
  | none => none

/-- `drone.properties?.speed`. -/
def propSpeed (r : Report) : Option Int :=
  match r.properties with
  | some p => p.speed
  | none => none

/-- `drone.properties?.battery`. -/
def propBattery (r : Report) : Option Int :=
  match r.properties with
  | some p => p.battery
  | none => none

/-- `drone.properties?.signal`. -/
def propSignal (r : Report) : Option Int :=
  match r.properties with
  | some p => p.signal
  | none => none

/-- `const droneId = drone.id || drone.properties?.serial;` — the key the
store files the report under. `none` models `undefined` (no top-level `id`,
no `properties.serial`): such a report is still processed, keyed by
`undefined`. -/
def resolveId (r : Report) : Option String :=
  jsOrStr r.id (propSerial r)

/-- `const position = drone.position || { lat: drone.geometry?.coordinates[1],
lng: drone.geometry?.coordinates[0],
altitude: drone.geometry?.coordinates[2] || drone.properties?.altitude };`
(a present `position` object is truthy, so it always wins). -/
def resolvePosition (r : Report) : Position :=
  match r.position with
  | some p => p
  | none =>
    { lat := r.geometry.bind fun g => g.coordinates[1]?
      lng := r.geometry.bind fun g => g.coordinates[0]?
      altitude := jsOrNum (r.geometry.bind fun g => g.coordinates[2]?) (propAltitude r) }

/-- Text interpolation of the key into `` `Drone ${droneId}` ``
(an `undefined` id prints as `"undefined"`). -/
def keyText : Option String → String
  | some s => s
  | none => "undefined"

/-- `new Date().toISOString()` at the store's `currentTime`, modelled as a
string determined by that time. -/
def isoNow (t : Nat) : String :=
  "iso:" ++ toString t

/-- The canonical entity record `droneData` built inside `updateDrones`. -/
structure DroneData where
  id : Option String
  name : String
  status : String
  color : String
  position : Position
  latitude : Option Int
  longitude : Option Int
  altitude : Int
  yaw : Int
  speed : Int
  battery : Int
  signal : Int
  lastSeen : Nat
  firstSeen : Nat
  flightTime : Int
  lastUpdate : String
  deriving DecidableEq, Repr

/-- One flight-path sample: `{coordinates: [lng, lat, altitude], timestamp}`
(`coordinates` entries may be `undefined`). -/
structure PathPoint where
  lng : Option Int
  lat : Option Int
  alt : Option Int
  timestamp : Nat
  deriving DecidableEq, Repr

/-- The zustand store state. -/
structure StoreState where
  drones : List (Option String × DroneData)
  dronePaths : List (Option String × List PathPoint)
  selectedDroneId : Option String
  isConnected : Bool
  lastUpdate : Option Nat
  deriving DecidableEq, Repr

/-- The store's initial state. -/
def initialState : StoreState :=
  { drones := [], dronePaths := [], selectedDroneId := none,
    isConnected := false, lastUpdate := none }

/-- The `droneData` object literal of `updateDrones` (source lines 118-135),
field by field. -/
def mkDroneData (currentTime : Nat) (r : Report) (droneId : Option String)
    (position : Position) (existingDrone : Option DroneData) : DroneData :=
  { id := droneId
    name := strD (jsOrStr r.name (propName r)) ("Drone " ++ keyText droneId)
    status := strD (jsOrStr r.status (propStatus r)) "FLYING"
    color := strD r.color
      (DroneColorStrategy.getColor (jsOrVal r.registration (propRegistration r)))
    position := position
    latitude := position.lat
    longitude := position.lng
    altitude := numD position.altitude 0
    yaw := numD (jsOrNum r.yaw (propYaw r)) 0
    speed := numD (jsOrNum r.speed (propSpeed r)) 0
    battery := numD (jsOrNum r.battery (propBattery r)) 100
    signal := numD (jsOrNum r.signal (propSignal r)) 100
    lastSeen := currentTime
    firstSeen :=
      match existingDrone with   -- existingDrone?.firstSeen || currentTime
      | some e => if e.firstSeen ≠ 0 then e.firstSeen else currentTime
      | none => currentTime
    flightTime :=
      match existingDrone with   -- currentTime - existingDrone.firstSeen : 0
      | some e => (currentTime : Int) - (e.firstSeen : Int)
      | none => 0
    lastUpdate := strD r.lastUpdate (isoNow currentTime) }

/-- The body of the `drones.forEach(drone => ...)` loop: upsert the entity
and append (capacity 100) one path sample, threading both maps. -/
def processReport (currentTime : Nat)
    (acc : List (Option String × DroneData) × List (Option String × List PathPoint))
    (r : Report) :
    List (Option String × DroneData) × List (Option String × List PathPoint) :=
  let droneId := resolveId r
  let position := resolvePosition r
  let existingDrone := mapGet acc.1 droneId
  let droneData := mkDroneData currentTime r droneId position existingDrone
  let newDrones := mapSet acc.1 droneId droneData
  let existingPath := (mapGet acc.2 droneId).getD []
  let pushed := existingPath ++
    [{ lng := position.lng, lat := position.lat, alt := position.altitude,
       timestamp := currentTime }]
  let capped := if pushed.length > 100 then pushed.drop 1 else pushed
  (newDrones, mapSet acc.2 droneId capped)

/-- The argument of `updateDrones`: either an array of reports or a
feature-collection object whose `features` may be absent. -/
inductive BatchData where
  | arr (reports : List Report)
  | featureCollection (features : Option (List Report))
  deriving DecidableEq, Repr

/-- `Array.isArray(data) ? data : data.features || []`. -/
def batchReports : BatchData → List Report
  | .arr reports => reports
  | .featureCollection features => features.getD []

/-- `updateDrones(data)` at store-clock `currentTime`. -/
def updateDrones (data : BatchData) (currentTime : Nat) (s : StoreState) : StoreState :=
  let folded := (batchReports data).foldl (processReport currentTime)
    (s.drones, s.dronePaths)
  { s with drones := folded.1, dronePaths := folded.2, lastUpdate := some currentTime }

/-- `selectDrone(droneId)`. -/
def selectDrone (droneId : Option String) (s : StoreState) : StoreState :=
  { s with selectedDroneId := droneId }

/-- `clearSelection()`. -/
def clearSelection (s : StoreState) : StoreState :=
  { s with selectedDroneId := none }

/-- `setConnectionStatus(status)`. -/
def setConnectionStatus (status : Bool) (s : StoreState) : StoreState :=
  { s with isConnected := status }

/-- `getDroneById(id)`. -/
def getDroneById (id : Option String) (s : StoreState) : Option DroneData :=
  mapGet s.drones id

/-- `getDronePath(id)`. -/
def getDronePath (id : Option String) (s : StoreState) : List PathPoint :=
  (mapGet s.dronePaths id).getD []

/-- The object returned by `getStatistics` on a non-empty store. -/
structure Stats where
  totalDrones : Nat
  redDrones : Nat
  greenDrones : Nat
  averageAltitude : Int
  maxAltitude : Int
  minAltitude : Int
  deriving DecidableEq, Repr

/-- `Math.max(...l)` over a non-empty list (the empty case is unreachable
behind the length guard in `getStatistics`). -/
def maxList : List Int → Int
  | [] => 0
  | h :: t => t.foldl max h

/-- `Math.min(...l)` over a non-empty list. -/
def minList : List Int → Int
  | [] => 0
  | h :: t => t.foldl min h

/-- `getStatistics()`: `null` (here `none`) when the store is empty, else
the aggregate object. JS float division is modelled by integer division;
only its definedness matters below. -/
def getStatistics (s : StoreState) : Option Stats :=
  let drones := s.drones.map Prod.snd
  if drones.length = 0 then none
  else
    let altitudes := drones.map DroneData.altitude
    some
      { totalDrones := drones.length
        redDrones := (drones.filter fun d => d.color == "red").length
        greenDrones := (drones.filter fun d => d.color == "green").length
        averageAltitude := altitudes.sum / (altitudes.length : Int)
        maxAltitude := maxList altitudes
        minAltitude := minList altitudes }

/-- A rendered mapbox marker, keyed by `drone.id`. `gen` is the sync pass
that constructed it: the source builds a brand-new `mapboxgl.Marker` for
every drone on every pass, so a marker surviving a pass unchanged would
keep its `gen`. -/
structure Marker where
  mid : Option String
  lng : Option Int
  lat : Option Int
  gen : Nat
  deriving DecidableEq, Repr

/-- The guard `if (!drone.position || !drone.position.lat ||
!drone.position.lng) return;` — the position object itself is always
truthy, so only the coordinates' truthiness matters. -/
def markerVisible (d : DroneData) : Bool :=
  (match d.position.lat with | some v => v != 0 | none => false) &&
  (match d.position.lng with | some v => v != 0 | none => false)

/-- What one run of the marker-sync effect did: which marker keys were
removed, and the marker map left behind. -/
structure SyncResult where
  removed : List (Option String)
  markers : List (Option String × Marker)
  deriving DecidableEq, Repr

/-- The body of the per-drone loop of the marker-sync effect: build a
brand-new marker (stamped with the current pass `gen`) for a drone whose
position coordinates are truthy, else skip it. -/
def markerStep (gen : Nat) (acc : List (Option String × Marker)) (d : DroneData) :
    List (Option String × Marker) :=
  if markerVisible d then
    mapSet acc d.id
      { mid := d.id, lng := d.position.lng, lat := d.position.lat, gen := gen }
  else acc

/-- One run of the marker-sync `useEffect` (MapboxMap.jsx lines 65-196):
it first removes every existing marker and clears the map, then creates a
fresh marker for every drone whose position coordinates are truthy. -/
def syncMarkers (prior : List (Option String × Marker))
    (drones : List (Option String × DroneData)) (gen : Nat) : SyncResult :=
  let removed := prior.map Prod.fst
  let markers := (drones.map Prod.snd).foldl (markerStep gen) []
  { removed := removed, markers := markers }

/-- The marker click handler (MapboxMap.jsx lines 151-161): toggle against
the current selection, then — when the `onDroneSelect` prop is wired, as
`App` wires it to `handleMapDroneSelect = selectDrone` — call it with the
clicked id. -/
def handleMarkerClick (wired : Bool) (clickedId : String) (s : StoreState) : StoreState :=
  let s1 := if s.selectedDroneId = some clickedId then clearSelection s
            else selectDrone (some clickedId) s
  if wired then selectDrone (some clickedId) s1 else s1

/-- A sequence of sequential single-report updates, each delivered at its
own store-clock time. -/
def applyUpdates (us : List (Report × Nat)) (s : StoreState) : StoreState :=
  us.foldl (fun st u => updateDrones (BatchData.arr [u.1]) u.2 st) s

/-- The path sample one processed report appends. -/
def mkSample (r : Report) (t : Nat) : PathPoint :=
  { lng := (resolvePosition r).lng, lat := (resolvePosition r).lat,
    alt := (resolvePosition r).altitude, timestamp := t }

/-- Push one sample and evict the oldest beyond capacity 100 — the
path-maintenance step of `updateDrones` in isolation. -/
def pushCap (l : List PathPoint) (x : PathPoint) : List PathPoint :=
  if (l ++ [x]).length > 100 then (l ++ [x]).drop 1 else l ++ [x]

/-- The samples a sequence of sequential updates contributes to key `k`,
in arrival order. -/
def samplesFor (k : Option String) (us : List (Report × Nat)) : List PathPoint :=
  (us.filter fun u => decide (resolveId u.1 = k)).map fun u => mkSample u.1 u.2

/-! Concrete fixtures used by counterexamples and witnesses. -/

/-- A well-formed flat-shape report for id `d1`. -/
def rBase : Report :=
  { id := some "d1",
    position := some { lat := some 1, lng := some 2, altitude := some 10 } }

/-- The same report re-keyed. -/
def rId (i : String) : Report := { rBase with id := some i }

/-- A report with no top-level `id` and no `properties` bag: its id is not
resolvable. -/
def rNoId : Report :=
  { position := some { lat := some 3, lng := some 4, altitude := some 20 } }

/-- Five reports of which exactly one (`rNoId`) has no resolvable id. -/
def batch5 : List Report :=
  [rBase, rId "d2", rId "d3", rId "d4", rNoId]

/-- A report carrying both a truthy `color` field and a registration that
classifies to the other color. -/
def rColorOverride : Report :=
  { rBase with color := some "green", registration := .str "G1" }

/-- A report with a registration but no `color` field. -/
def rRegOnly : Report :=
  { rBase with registration := .str "G1" }

/-- A report whose `battery` is present and equal to `0`. -/
def rBatteryZero : Report :=
  { rBase with battery := some 0 }

/-- A report with every defaultable telemetry field absent and no altitude
in its position. -/
def rAllAbsent : Report :=
  { id := some "d1", position := some { lat := some 1, lng := some 2 } }

/-- A marker as a previous sync pass (generation 0) would have left it for
`rBase`'s drone. -/
def m0 : Marker := { mid := some "d1", lng := some 2, lat := some 1, gen := 0 }

/-- The entity `rBase` produces on first sight at time 5. -/
def dd1 : DroneData :=
  mkDroneData 5 rBase (resolveId rBase) (resolvePosition rBase) none

/-! Helper lemmas about the JS `Map` model. -/

theorem mapGet_mapSet {α β : Type} [DecidableEq α] (m : List (α × β)) (k q : α) (v : β) :
    mapGet (mapSet m k v) q = if k = q then some v else mapGet m q := by
  induction m with
  | nil => by_cases h : k = q <;> simp [mapSet, mapGet, h]
  | cons hd tl ih =>
    obtain ⟨k0, v0⟩ := hd
    by_cases h1 : k0 = k
    · subst h1
      by_cases h2 : k0 = q <;> simp [mapSet, mapGet, h2]
    · by_cases h2 : k0 = q
      · have hkq : ¬ (k = q) := fun hh => h1 (h2.trans hh.symm)
        have hqk : ¬ (q = k) := fun hh => hkq hh.symm
        simp [mapSet, mapGet, h1, h2, hkq, hqk]
      · simp [mapSet, mapGet, h1, h2, ih]

theorem mapGet_mapSet_self {α β : Type} [DecidableEq α] (m : List (α × β)) (k : α) (v : β) :
    mapGet (mapSet m k v) k = some v := by
  simp [mapGet_mapSet]

theorem getColor_str (s : String) :
    DroneColorStrategy.getColor (JSValue.str s) =
      if startsWithB s then "green" else "red" := by
  by_cases h : s = ""
  · subst h; decide
  · simp [DroneColorStrategy.getColor, JSValue.truthy, JSValue.isString, h]

/-- Claim C1: the claim asserts that a report with no resolvable id is
dropped, so a batch of 5 reports of which exactly 1 has no resolvable id
creates/updates exactly 4 entities. In the source no drop happens: the
report is processed with `droneId = undefined`, so the batch creates 5
entities, one keyed by the undefined id. -/
theorem c1_counterexample :
    resolveId rNoId = none
    ∧ (updateDrones (BatchData.arr batch5) 1000 initialState).drones.length = 5
    ∧ mapGet (updateDrones (BatchData.arr batch5) 1000 initialState).drones none ≠ none := by
  refine ⟨rfl, by decide, by decide⟩

/-- Claim C3 (confirmed): `DroneColorStrategy.getColor` is total over any
runtime value and fail-closed: `undefined`, the empty string and every
non-string value classify red (UNSAFE), and a string classifies green
(SAFE) exactly when it starts with the authorized prefix "B"; being a
total Lean function it throws on no input. -/
theorem c3_classify_total_fail_closed :
    (∀ v : JSValue,
      DroneColorStrategy.getColor v = "red" ∨ DroneColorStrategy.getColor v = "green")
    ∧ DroneColorStrategy.getColor JSValue.undefV = "red"
    ∧ DroneColorStrategy.getColor (JSValue.str "") = "red"
    ∧ (∀ v : JSValue, v.isString = false → DroneColorStrategy.getColor v = "red")
    ∧ (∀ s : String,
        DroneColorStrategy.getColor (JSValue.str s) = "green" ↔ startsWithB s) := by
  refine ⟨?_, by decide, by decide, ?_, ?_⟩
  · intro v
    cases v with
    | str s =>
      rw [getColor_str]
      by_cases h : startsWithB s <;> simp [h]
    | undefV => left; rfl
    | nullV => left; rfl
    | nanV => left; rfl
    | obj => left; simp [DroneColorStrategy.getColor, JSValue.isString]
    | boolV b => left; simp [DroneColorStrategy.getColor, JSValue.isString]
    | num n => left; simp [DroneColorStrategy.getColor, JSValue.isString]
  · intro v h
    cases v <;> simp_all [DroneColorStrategy.getColor, JSValue.isString]
  · intro s
    rw [getColor_str]
    by_cases h : startsWithB s <;> simp [h]

/-- Witness for C3 at concrete inputs. -/
theorem c3_witness :
    DroneColorStrategy.getColor (JSValue.num 5) = "red"
    ∧ (DroneColorStrategy.getColor (JSValue.str "B0042") = "green" ↔
        startsWithB "B0042") :=
  ⟨c3_classify_total_fail_closed.2.2.2.1 (JSValue.num 5) rfl,
   c3_classify_total_fail_closed.2.2.2.2 "B0042"⟩

/-- Claim C4: the claim asserts `getStatistics` on an empty store returns a
defined neutral object (e.g. with `totalDrones: 0`). The source returns
`null` (`none`) instead of any object. -/
theorem c4_counterexample :
    getStatistics initialState = none
    ∧ ¬ ∃ st : Stats, getStatistics initialState = some st ∧ st.totalDrones = 0 := by
  refine ⟨rfl, ?_⟩
  rintro ⟨st, h, -⟩
  rw [show getStatistics initialState = none from rfl] at h
  exact Option.noConfusion h

/-- Claim C4 as amended: on an empty store `getStatistics` returns `null`
(a defined neutral value, not an object with `totalDrones: 0`) and never
crashes; whenever it does return an object the entity count is the store's
size and positive, so no field arises from averaging zero items or from
max/min over an empty list. -/
theorem c4_statistics_null_on_empty (s : StoreState) :
    (s.drones = [] → getStatistics s = none)
    ∧ (s.drones ≠ [] → getStatistics s ≠ none)
    ∧ (∀ st : Stats, getStatistics s = some st →
        st.totalDrones = s.drones.length ∧ 0 < st.totalDrones) := by
  refine ⟨?_, ?_, ?_⟩
  · intro h; simp [getStatistics, h]
  · intro h hcon
    simp only [getStatistics] at hcon
    split at hcon
    · next hc => exact h (List.eq_nil_of_length_eq_zero (by simpa using hc))
    · exact Option.noConfusion hcon
  · intro st h
    simp only [getStatistics] at h
    split at h
    · exact absurd h (by simp)
    · next hc =>
      injection h with h2
      subst h2
      exact ⟨by simp, Nat.pos_of_ne_zero hc⟩

/-- Witness for C4's amended theorem: empty store and a one-entity store. -/
theorem c4_witness :
    getStatistics initialState = none
    ∧ getStatistics (updateDrones (BatchData.arr [rBase]) 5 initialState) ≠ none :=
  ⟨(c4_statistics_null_on_empty initialState).1 rfl,
   (c4_statistics_null_on_empty _).2.1 (by decide)⟩

/-- Claim C9: the claim asserts clicking the currently selected marker
clears the selection, including with the `onDroneSelect` callback the
application wires. In the source that callback is `selectDrone(droneId)`
and runs after the toggle, so clicking the selected marker re-selects it:
the selection ends up on the clicked id, not cleared. -/
theorem c9_counterexample :
    (handleMarkerClick true "d1"
      { initialState with selectedDroneId := some "d1" }).selectedDroneId = some "d1"
    ∧ (handleMarkerClick true "d1"
      { initialState with selectedDroneId := some "d1" }).selectedDroneId ≠ none := by
  exact ⟨rfl, by decide⟩

/-- Claim C9 as amended: with the application's `onDroneSelect` wired, a
marker click always ends with the clicked id selected (the toggle-off is
immediately overridden by the callback); without the callback the click
toggles exactly as the claim states. -/
theorem c9_click_always_selects_when_wired (s : StoreState) (id : String) :
    ((handleMarkerClick true id s).selectedDroneId = some id)
    ∧ (s.selectedDroneId = some id →
        (handleMarkerClick false id s).selectedDroneId = none)
    ∧ (s.selectedDroneId ≠ some id →
        (handleMarkerClick false id s).selectedDroneId = some id) := by
  refine ⟨rfl, ?_, ?_⟩
  · intro h; simp [handleMarkerClick, h, clearSelection]
  · intro h; simp [handleMarkerClick, h, selectDrone]

/-- Witness for C9's amended theorem. -/
theorem c9_witness :
    (handleMarkerClick false "d1"
      { initialState with selectedDroneId := some "d1" }).selectedDroneId = none
    ∧ (handleMarkerClick false "d2"
      { initialState with selectedDroneId := some "d1" }).selectedDroneId = some "d2" :=
  ⟨(c9_click_always_selects_when_wired _ "d1").2.1 rfl,
   (c9_click_always_selects_when_wired _ "d2").2.2 (by decide)⟩

/-- Claim C10 (confirmed): `selectDrone`, `clearSelection` and
`setConnectionStatus` each write only the single field they own and leave
the drones map, the path map, `lastUpdate` and each other's fields
untouched; `selectDrone` is total in its id, including ids absent from the
store. -/
theorem c10_selection_connectivity_frame (s : StoreState) (id : Option String) (b : Bool) :
    ((selectDrone id s).selectedDroneId = id
      ∧ (selectDrone id s).drones = s.drones
      ∧ (selectDrone id s).dronePaths = s.dronePaths
      ∧ (selectDrone id s).lastUpdate = s.lastUpdate
      ∧ (selectDrone id s).isConnected = s.isConnected)
    ∧ ((clearSelection s).selectedDroneId = none
      ∧ (clearSelection s).drones = s.drones
      ∧ (clearSelection s).dronePaths = s.dronePaths
      ∧ (clearSelection s).lastUpdate = s.lastUpdate
      ∧ (clearSelection s).isConnected = s.isConnected)
    ∧ ((setConnectionStatus b s).isConnected = b
      ∧ (setConnectionStatus b s).drones = s.drones
      ∧ (setConnectionStatus b s).dronePaths = s.dronePaths
      ∧ (setConnectionStatus b s).lastUpdate = s.lastUpdate
      ∧ (setConnectionStatus b s).selectedDroneId = s.selectedDroneId) :=
  ⟨⟨rfl, rfl, rfl, rfl, rfl⟩, ⟨rfl, rfl, rfl, rfl, rfl⟩, ⟨rfl, rfl, rfl, rfl, rfl⟩⟩

theorem processReport_fst (t : Nat)
    (acc : List (Option String × DroneData) × List (Option String × List PathPoint))
    (r : Report) :
    (processReport t acc r).1 =
      mapSet acc.1 (resolveId r)
        (mkDroneData t r (resolveId r) (resolvePosition r)
          (mapGet acc.1 (resolveId r))) := rfl

theorem processReport_snd (t : Nat)
    (acc : List (Option String × DroneData) × List (Option String × List PathPoint))
    (r : Report) :
    (processReport t acc r).2 =
      mapSet acc.2 (resolveId r)
        (pushCap ((mapGet acc.2 (resolveId r)).getD []) (mkSample r t)) := rfl

theorem foldl_processReport_presence (t : Nat) (l : List Report) :
    ∀ (acc : List (Option String × DroneData) × List (Option String × List PathPoint))
      (k : Option String),
      mapGet acc.1 k ≠ none →
      mapGet (l.foldl (processReport t) acc).1 k ≠ none := by
  induction l with
  | nil => intro acc k h; exact h
  | cons r rest ih =>
    intro acc k h
    refine ih _ k ?_
    rw [processReport_fst, mapGet_mapSet]
    split
    · simp
    · exact h

theorem foldl_processReport_member (t : Nat) (l : List Report) :
    ∀ (acc : List (Option String × DroneData) × List (Option String × List PathPoint))
      (r : Report), r ∈ l →
      mapGet (l.foldl (processReport t) acc).1 (resolveId r) ≠ none := by
  induction l with
  | nil => intro acc r h; cases h
  | cons a rest ih =>
    intro acc r h
    rcases List.mem_cons.mp h with h | h
    · subst h
      refine foldl_processReport_presence t rest (processReport t acc r) (resolveId r) ?_
      rw [processReport_fst, mapGet_mapSet_self]
      simp
    · exact ih _ r h

theorem updateDrones_single_drones (r : Report) (t : Nat) (s : StoreState) :
    mapGet (updateDrones (BatchData.arr [r]) t s).drones (resolveId r)
      = some (mkDroneData t r (resolveId r) (resolvePosition r)
          (mapGet s.drones (resolveId r))) := by
  show mapGet (processReport t (s.drones, s.dronePaths) r).1 (resolveId r) = _
  rw [processReport_fst, mapGet_mapSet_self]

/-- Claim C1 as amended: a report with no resolvable id is not dropped:
`updateDrones` still files it, keyed by the undefined id, so every report
of a batch — resolvable or not — ends with an entity stored under its
resolved key, the rest of the batch is processed, and the (total) update
never throws; in particular a 5-report batch with exactly 1 unresolvable
id creates/updates 5 entities, one of them keyed by the undefined id. -/
theorem c1_unresolvable_id_not_dropped (batch : List Report) (t : Nat)
    (s : StoreState) (r : Report) (hr : r ∈ batch) :
    mapGet (updateDrones (BatchData.arr batch) t s).drones (resolveId r) ≠ none := by
  show mapGet (batch.foldl (processReport t) (s.drones, s.dronePaths)).1 (resolveId r) ≠ none
  exact foldl_processReport_member t batch _ r hr

/-- Witness for C1's amended theorem: the unresolvable report of `batch5`
ends up stored under the undefined key. -/
theorem c1_witness :
    mapGet (updateDrones (BatchData.arr batch5) 1000 initialState).drones
      (resolveId rNoId) ≠ none :=
  c1_unresolvable_id_not_dropped batch5 1000 initialState rNoId (by decide)

/-- Claim C5: the claim asserts the stored entity's color is
`classify(registration)` and is determined by no other part of the report.
In the source a truthy `color` field on the report takes precedence; a
report carrying `color: "green"` and a registration classifying red is
stored green. -/
theorem c5_counterexample :
    (mapGet (updateDrones (BatchData.arr [rColorOverride]) 7 initialState).drones
        (some "d1")).map DroneData.color = some "green"
    ∧ DroneColorStrategy.getColor
        (jsOrVal rColorOverride.registration (propRegistration rColorOverride))
        = "red" :=
  ⟨by decide, by decide⟩

/-- Claim C5 as amended: when the report carries no truthy `color` field,
the stored entity's color is exactly the classification of the report's
registration (top-level, falling back to `properties.registration`); a
truthy report `color` overrides the classification. -/
theorem c5_color_pure_without_override (r : Report) (t : Nat) (s : StoreState)
    (d : DroneData)
    (hcolor : r.color = none ∨ r.color = some "")
    (hd : mapGet (updateDrones (BatchData.arr [r]) t s).drones (resolveId r) = some d) :
    d.color = DroneColorStrategy.getColor
      (jsOrVal r.registration (propRegistration r)) := by
  rw [updateDrones_single_drones] at hd
  injection hd with hd2
  subst hd2
  rcases hcolor with h | h <;> simp [mkDroneData, strD, h]

/-- Witness for C5's amended theorem. -/
theorem c5_witness :
    (mkDroneData 7 rRegOnly (resolveId rRegOnly) (resolvePosition rRegOnly)
        none).color
      = DroneColorStrategy.getColor
          (jsOrVal rRegOnly.registration (propRegistration rRegOnly)) :=
  c5_color_pure_without_override rRegOnly 7 initialState
    (mkDroneData 7 rRegOnly (resolveId rRegOnly) (resolvePosition rRegOnly) none)
    (Or.inl rfl) (by decide)

/-- Claim C6: the claim asserts fields present in the report are stored
with exactly the report's value. In the source every default is applied
with JS `||`, so a present falsy value also falls to the default: a report
with `battery: 0` is stored with battery 100. -/
theorem c6_counterexample :
    rBatteryZero.battery = some 0
    ∧ (mapGet (updateDrones (BatchData.arr [rBatteryZero]) 7 initialState).drones
        (some "d1")).map DroneData.battery = some 100 :=
  ⟨rfl, by decide⟩

/-- Claim C6 as amended: absent fields default to the fixed constants
(altitude 0, yaw 0, speed 0, battery 100, signal 100) so nothing undefined
reaches the entity, and nonzero present values are stored exactly; but
because the defaults use JS `||`, a present zero battery/signal also falls
to its default (100) rather than being stored as 0. -/
theorem c6_field_defaults (r : Report) (t : Nat) (s : StoreState) (d : DroneData)
    (hd : mapGet (updateDrones (BatchData.arr [r]) t s).drones (resolveId r) = some d) :
    ((resolvePosition r).altitude = none → d.altitude = 0)
    ∧ (r.yaw = none → r.properties = none → d.yaw = 0)
    ∧ (r.speed = none → r.properties = none → d.speed = 0)
    ∧ (r.battery = none → r.properties = none → d.battery = 100)
    ∧ (r.signal = none → r.properties = none → d.signal = 100)
    ∧ (∀ v : Int, v ≠ 0 → r.yaw = some v → d.yaw = v)
    ∧ (∀ v : Int, v ≠ 0 → r.speed = some v → d.speed = v)
    ∧ (∀ v : Int, v ≠ 0 → r.battery = some v → d.battery = v)
    ∧ (∀ v : Int, v ≠ 0 → r.signal = some v → d.signal = v)
    ∧ (∀ v : Int, v ≠ 0 → (resolvePosition r).altitude = some v → d.altitude = v)
    ∧ (r.battery = some 0 → r.properties = none → d.battery = 100)
    ∧ (r.signal = some 0 → r.properties = none → d.signal = 100) := by
  rw [updateDrones_single_drones] at hd
  injection hd with hd2
  subst hd2
  refine ⟨?_, ?_, ?_, ?_, ?_, ?_, ?_, ?_, ?_, ?_, ?_, ?_⟩ <;>
    intros <;>
    simp_all [mkDroneData, numD, jsOrNum, propYaw, propSpeed, propBattery, propSignal]

/-- Witness for C6's amended theorem: a report with all defaultable fields
absent yields the constants, including altitude 0 rather than an undefined
value. -/
theorem c6_witness :
    (mkDroneData 7 rAllAbsent (resolveId rAllAbsent) (resolvePosition rAllAbsent)
        none).altitude = 0
    ∧ (mkDroneData 7 rAllAbsent (resolveId rAllAbsent) (resolvePosition rAllAbsent)
        none).battery = 100 := by
  have h := c6_field_defaults rAllAbsent 7 initialState
    (mkDroneData 7 rAllAbsent (resolveId rAllAbsent) (resolvePosition rAllAbsent) none)
    (by decide)
  exact ⟨h.1 rfl, h.2.2.2.1 rfl rfl⟩

theorem markerStep_gen (g : Nat) (l : List DroneData) :
    ∀ (acc : List (Option String × Marker)),
      (∀ k m, mapGet acc k = some m → m.gen = g) →
      ∀ k m, mapGet (l.foldl (markerStep g) acc) k = some m → m.gen = g := by
  induction l with
  | nil => intro acc h; exact h
  | cons d rest ih =>
    intro acc h
    refine ih _ ?_
    intro k m hm
    unfold markerStep at hm
    split at hm
    · rw [mapGet_mapSet] at hm
      split at hm
      · injection hm with hm2; rw [← hm2]
      · exact h k m hm
    · exact h k m hm

theorem markerStep_presence (g : Nat) (l : List DroneData) :
    ∀ (acc : List (Option String × Marker)) (k : Option String),
      mapGet acc k ≠ none →
      mapGet (l.foldl (markerStep g) acc) k ≠ none := by
  induction l with
  | nil => intro acc k h; exact h
  | cons d rest ih =>
    intro acc k h
    refine ih _ k ?_
    unfold markerStep
    split
    · rw [mapGet_mapSet]
      split
      · simp
      · exact h
    · exact h

theorem markerStep_member (g : Nat) (l : List DroneData) :
    ∀ (acc : List (Option String × Marker)) (d : DroneData),
      d ∈ l → markerVisible d →
      mapGet (l.foldl (markerStep g) acc) d.id ≠ none := by
  induction l with
  | nil => intro acc d h; cases h
  | cons a rest ih =>
    intro acc d h hv
    rcases List.mem_cons.mp h with h | h
    · subst h
      refine markerStep_presence g rest (markerStep g acc d) d.id ?_
      unfold markerStep
      rw [if_pos hv, mapGet_mapSet_self]
      simp
    · exact ih _ d h hv

/-- Claim C8: the claim asserts the sync is a minimal diff that never
removes and recreates the marker of a persisting entity. The source's sync
effect removes every existing marker first: with the same entity present
in the prior marker set and the current entity set, its key appears in the
removed list and the marker left behind is a freshly constructed one of
this pass, not the prior marker. -/
theorem c8_counterexample :
    (syncMarkers [(some "d1", m0)] [(some "d1", dd1)] 1).removed = [some "d1"]
    ∧ mapGet (syncMarkers [(some "d1", m0)] [(some "d1", dd1)] 1).markers
        (some "d1") ≠ some m0
    ∧ mapGet (syncMarkers [(some "d1", m0)] [(some "d1", dd1)] 1).markers
        (some "d1") ≠ none :=
  ⟨rfl, by decide, by decide⟩

/-- Claim C8 as amended: each sync pass removes all prior markers —
persisting entities included — and then recreates a fresh marker
(stamped with the current pass) for every current entity whose position
coordinates are truthy; nothing is updated in place. -/
theorem c8_sync_clears_and_recreates (prior : List (Option String × Marker))
    (ds : List (Option String × DroneData)) (g : Nat) :
    (syncMarkers prior ds g).removed = prior.map Prod.fst
    ∧ (∀ k m, mapGet (syncMarkers prior ds g).markers k = some m → m.gen = g)
    ∧ (∀ p ∈ ds, markerVisible p.2 →
        mapGet (syncMarkers prior ds g).markers p.2.id ≠ none) := by
  refine ⟨rfl, ?_, ?_⟩
  · refine markerStep_gen g (ds.map Prod.snd) [] ?_
    intro k m hm
    simp [mapGet] at hm
  · intro p hp hv
    exact markerStep_member g (ds.map Prod.snd) [] p.2 (List.mem_map_of_mem _ hp) hv

/-- Witness for C8's amended theorem. -/
theorem c8_witness :
    mapGet (syncMarkers [(some "d1", m0)] [(some "d1", dd1)] 1).markers dd1.id
      ≠ none :=
  (c8_sync_clears_and_recreates [(some "d1", m0)] [(some "d1", dd1)] 1).2.2
    (some "d1", dd1) (by decide) (by decide)

theorem getDronePath_updateDrones_single (r : Report) (t : Nat) (s : StoreState)
    (k : Option String) :
    getDronePath k (updateDrones (BatchData.arr [r]) t s)
      = if resolveId r = k then pushCap (getDronePath k s) (mkSample r t)
        else getDronePath k s := by
  show (mapGet (processReport t (s.drones, s.dronePaths) r).2 k).getD [] = _
  rw [processReport_snd, mapGet_mapSet]
  split
  · next h => subst h; rfl
  · rfl

theorem getDronePath_applyUpdates (us : List (Report × Nat)) (k : Option String) :
    ∀ s : StoreState,
      getDronePath k (applyUpdates us s)
        = (samplesFor k us).foldl pushCap (getDronePath k s) := by
  induction us with
  | nil => intro s; rfl
  | cons u rest ih =>
    intro s
    show getDronePath k (applyUpdates rest (updateDrones (BatchData.arr [u.1]) u.2 s)) = _
    rw [ih, getDronePath_updateDrones_single]
    by_cases h : resolveId u.1 = k
    · rw [if_pos h]
      have hsf : samplesFor k (u :: rest) = mkSample u.1 u.2 :: samplesFor k rest := by
        simp [samplesFor, List.filter_cons, h]
      rw [hsf, List.foldl_cons]
    · rw [if_neg h]
      have hsf : samplesFor k (u :: rest) = samplesFor k rest := by
        simp [samplesFor, List.filter_cons, h]
      rw [hsf]

theorem foldl_pushCap_lastN (xs : List PathPoint) :
    ∀ l : List PathPoint, l.length ≤ 100 →
      (xs.foldl pushCap l).length = min (l.length + xs.length) 100
      ∧ xs.foldl pushCap l = (l ++ xs).drop (l.length + xs.length - 100) := by
  induction xs with
  | nil =>
    intro l h
    constructor
    · simp only [List.foldl_nil, List.length_nil, Nat.add_zero]
      omega
    · simp only [List.foldl_nil, List.length_nil, Nat.add_zero, List.append_nil,
        Nat.sub_eq_zero_of_le h, List.drop_zero]
  | cons x xs ih =>
    intro l h
    rw [List.foldl_cons]
    have hsing : ([x] : List PathPoint).length = 1 := rfl
    by_cases hl : l.length + 1 > 100
    · have hlen : l.length = 100 := by omega
      have hpc : pushCap l x = (l ++ [x]).drop 1 := by
        simp only [pushCap, List.length_append, hsing]
        rw [if_pos hl]
      have hlen2 : ((l ++ [x]).drop 1).length ≤ 100 := by
        simp only [List.length_drop, List.length_append, hsing]
        omega
      obtain ⟨ihlen, ihcontent⟩ := ih ((l ++ [x]).drop 1) hlen2
      rw [hpc]
      constructor
      · rw [ihlen]
        simp only [List.length_drop, List.length_append, hsing, List.length_cons]
        omega
      · rw [ihcontent]
        have h1 : ((l ++ [x]).drop 1).length + xs.length - 100 = xs.length := by
          simp only [List.length_drop, List.length_append, hsing]
          omega
        have h2 : (l ++ x :: xs).drop 1 = (l ++ [x]).drop 1 ++ xs := by
          rw [List.append_cons l x xs]
          exact List.drop_append_of_le_length (by simp)
        rw [h1, ← h2, List.drop_drop]
        congr 1
        simp only [List.length_cons]
        omega
    · have hpc : pushCap l x = l ++ [x] := by
        simp only [pushCap, List.length_append, hsing]
        rw [if_neg hl]
      have hlen2 : (l ++ [x]).length ≤ 100 := by
        simp only [List.length_append, hsing]
        omega
      obtain ⟨ihlen, ihcontent⟩ := ih (l ++ [x]) hlen2
      rw [hpc]
      constructor
      · rw [ihlen]
        simp only [List.length_append, hsing, List.length_cons]
        omega
      · rw [ihcontent]
        rw [List.append_assoc, List.singleton_append]
        congr 1
        simp only [List.length_append, hsing, List.length_cons]
        omega

/-- Claim C2 (confirmed): under any sequence of sequential single-report
updates from the empty store, the stored path of every key `k` has length
`min(number of updates received for k, 100)` — hence never exceeds 100 —
and its contents are exactly the most recent (at most) 100 of `k`'s
samples in arrival order, the oldest evicted first; in particular after
150 updates to one id the path is the last 100 samples. -/
theorem c2_path_bounded_most_recent (us : List (Report × Nat)) (k : Option String) :
    (getDronePath k (applyUpdates us initialState)).length
        = min (samplesFor k us).length 100
    ∧ getDronePath k (applyUpdates us initialState)
        = (samplesFor k us).drop ((samplesFor k us).length - 100) := by
  have h := getDronePath_applyUpdates us k initialState
  have h0 : getDronePath k initialState = [] := rfl
  rw [h0] at h
  obtain ⟨hlen, hcontent⟩ := foldl_pushCap_lastN (samplesFor k us) [] (by simp)
  constructor
  · rw [h, hlen]; simp
  · rw [h, hcontent]; simp

theorem getLastD_of_ne_nil {α : Type} {l : List α} (h : l ≠ []) (a b : α) :
    l.getLastD a = l.getLastD b := by
  cases l with
  | nil => exact absurd rfl h
  | cons x xs => rw [List.getLastD_cons, List.getLastD_cons]

theorem entity_run (k : String) (us : List (Report × Nat)) :
    ∀ (s : StoreState) (d0 : DroneData),
      (∀ u ∈ us, resolveId u.1 = some k) →
      (∀ u ∈ us, 0 < u.2) →
      mapGet s.drones (some k) = some d0 →
      0 < d0.firstSeen →
      ∃ d, mapGet (applyUpdates us s).drones (some k) = some d
        ∧ d.firstSeen = d0.firstSeen
        ∧ (us = [] → d = d0)
        ∧ (us ≠ [] →
            d.lastSeen = (us.map Prod.snd).getLastD 0
            ∧ d.flightTime
                = ((us.map Prod.snd).getLastD 0 : Int) - (d0.firstSeen : Int)) := by
  induction us with
  | nil =>
    intro s d0 _ _ hs _
    exact ⟨d0, hs, rfl, fun _ => rfl, fun h => absurd rfl h⟩
  | cons u rest ih =>
    intro s d0 hid hpos hs h0
    have hkid : resolveId u.1 = some k := hid u (List.mem_cons_self u rest)
    have hstep : mapGet (updateDrones (BatchData.arr [u.1]) u.2 s).drones (some k)
        = some (mkDroneData u.2 u.1 (some k) (resolvePosition u.1) (some d0)) := by
      have h2 := updateDrones_single_drones u.1 u.2 s
      rw [hkid] at h2
      rw [hs] at h2
      exact h2
    have hfs1 : (mkDroneData u.2 u.1 (some k) (resolvePosition u.1) (some d0)).firstSeen
        = d0.firstSeen := by
      simp [mkDroneData, Nat.pos_iff_ne_zero.mp h0]
    have h01 : 0 < (mkDroneData u.2 u.1 (some k) (resolvePosition u.1) (some d0)).firstSeen := by
      rw [hfs1]; exact h0
    obtain ⟨d, hd, hfs, hnil, hne⟩ := ih (updateDrones (BatchData.arr [u.1]) u.2 s)
      (mkDroneData u.2 u.1 (some k) (resolvePosition u.1) (some d0))
      (fun v hv => hid v (List.mem_cons_of_mem u hv))
      (fun v hv => hpos v (List.mem_cons_of_mem u hv))
      hstep h01
    have hmapcons : ((u :: rest).map Prod.snd).getLastD 0
        = (rest.map Prod.snd).getLastD u.2 := by
      rw [List.map_cons, List.getLastD_cons]
    refine ⟨d, hd, by rw [hfs, hfs1], ?_, ?_⟩
    · intro h; cases h
    · intro _
      by_cases hr : rest = []
      · subst hr
        have hdd : d = mkDroneData u.2 u.1 (some k) (resolvePosition u.1) (some d0) :=
          hnil rfl
        subst hdd
        refine ⟨?_, ?_⟩
        · rw [hmapcons]; rfl
        · rw [hmapcons]; rfl
      · have hmapne : rest.map Prod.snd ≠ [] := by
          intro hh
          exact hr (List.map_eq_nil_iff.mp hh)
        have heq : ((u :: rest).map Prod.snd).getLastD 0
            = (rest.map Prod.snd).getLastD 0 := by
          rw [hmapcons]
          exact getLastD_of_ne_nil hmapne u.2 0
        obtain ⟨hls, hft⟩ := hne hr
        refine ⟨?_, ?_⟩
        · rw [hls, heq]
        · rw [hft, hfs1, heq]

theorem entity_from_empty (k : String) (u : Report × Nat) (rest : List (Report × Nat))
    (hid : ∀ v ∈ u :: rest, resolveId v.1 = some k)
    (hpos : ∀ v ∈ u :: rest, 0 < v.2) :
    ∃ d, mapGet (applyUpdates (u :: rest) initialState).drones (some k) = some d
      ∧ d.firstSeen = u.2
      ∧ d.lastSeen = ((u :: rest).map Prod.snd).getLastD 0
      ∧ d.flightTime = (d.lastSeen : Int) - (d.firstSeen : Int) := by
  have hkid : resolveId u.1 = some k := hid u (List.mem_cons_self u rest)
  have hstep : mapGet (updateDrones (BatchData.arr [u.1]) u.2 initialState).drones (some k)
      = some (mkDroneData u.2 u.1 (some k) (resolvePosition u.1) none) := by
    have h2 := updateDrones_single_drones u.1 u.2 initialState
    rw [hkid] at h2
    exact h2
  have hfs1 : (mkDroneData u.2 u.1 (some k) (resolvePosition u.1) none).firstSeen = u.2 := rfl
  have h01 : 0 < (mkDroneData u.2 u.1 (some k) (resolvePosition u.1) none).firstSeen := by
    rw [hfs1]; exact hpos u (List.mem_cons_self u rest)
  obtain ⟨d, hd, hfs, hnil, hne⟩ := entity_run k rest
    (updateDrones (BatchData.arr [u.1]) u.2 initialState)
    (mkDroneData u.2 u.1 (some k) (resolvePosition u.1) none)
    (fun v hv => hid v (List.mem_cons_of_mem u hv))
    (fun v hv => hpos v (List.mem_cons_of_mem u hv))
    hstep h01
  have hmapcons : ((u :: rest).map Prod.snd).getLastD 0
      = (rest.map Prod.snd).getLastD u.2 := by
    rw [List.map_cons, List.getLastD_cons]
  refine ⟨d, hd, by rw [hfs, hfs1], ?_, ?_⟩
  · by_cases hr : rest = []
    · subst hr
      rw [hnil rfl, hmapcons]
      rfl
    · obtain ⟨hls, -⟩ := hne hr
      rw [hls, hmapcons]
      exact getLastD_of_ne_nil (fun hh => hr (List.map_eq_nil_iff.mp hh)) 0 u.2
  · by_cases hr : rest = []
    · subst hr
      rw [hnil rfl]
      show (0 : Int) = (u.2 : Int) - (u.2 : Int)
      omega
    · obtain ⟨hls, hft⟩ := hne hr
      rw [hft, hls, hfs, hfs1]

/-- Claim C7 (confirmed, with positive clock times as `Date.now()`
guarantees): over any nonempty run of sequential updates for an id,
`firstSeen` is the time of the first observation, `lastSeen` the time of
the last, and after every update `flightTime = lastSeen − firstSeen`;
extending the run by one more update at a non-earlier time keeps
`firstSeen` unchanged and does not decrease `flightTime`, and an update
strictly later than the first observation makes `flightTime` strictly
positive. -/
theorem c7_first_seen_immutable_flight_time (us : List (Report × Nat)) (k : String)
    (hne : us ≠ [])
    (hid : ∀ u ∈ us, resolveId u.1 = some k)
    (hpos : ∀ u ∈ us, 0 < u.2) :
    ∃ d, mapGet (applyUpdates us initialState).drones (some k) = some d
      ∧ d.firstSeen = (us.map Prod.snd).headD 0
      ∧ d.lastSeen = (us.map Prod.snd).getLastD 0
      ∧ d.flightTime = (d.lastSeen : Int) - (d.firstSeen : Int)
      ∧ (∀ (r : Report) (t : Nat), resolveId r = some k →
          (us.map Prod.snd).getLastD 0 ≤ t → 0 < t →
          ∃ d2, mapGet (applyUpdates (us ++ [(r, t)]) initialState).drones (some k)
              = some d2
            ∧ d2.firstSeen = d.firstSeen
            ∧ d.flightTime ≤ d2.flightTime
            ∧ d2.flightTime = (t : Int) - (d.firstSeen : Int))
      ∧ (∀ (r : Report) (t : Nat), resolveId r = some k →
          (us.map Prod.snd).headD 0 < t →
          ∃ d2, mapGet (applyUpdates (us ++ [(r, t)]) initialState).drones (some k)
              = some d2
            ∧ 0 < d2.flightTime) := by
  obtain ⟨u, rest, rfl⟩ := List.exists_cons_of_ne_nil hne
  obtain ⟨d, hd, hfs, hls, hft⟩ := entity_from_empty k u rest hid hpos
  have hheadD : ((u :: rest).map Prod.snd).headD 0 = u.2 := rfl
  refine ⟨d, hd, by rw [hfs, hheadD], hls, hft, ?_, ?_⟩
  · intro r t hkr hle ht
    have hid2 : ∀ v ∈ u :: (rest ++ [(r, t)]), resolveId v.1 = some k := by
      intro v hv
      rcases List.mem_cons.mp hv with hv | hv
      · rw [hv]; exact hid u (List.mem_cons_self u rest)
      · rcases List.mem_append.mp hv with hv | hv
        · exact hid v (List.mem_cons_of_mem u hv)
        · rw [List.mem_singleton.mp hv]; exact hkr
    have hpos2 : ∀ v ∈ u :: (rest ++ [(r, t)]), 0 < v.2 := by
      intro v hv
      rcases List.mem_cons.mp hv with hv | hv
      · rw [hv]; exact hpos u (List.mem_cons_self u rest)
      · rcases List.mem_append.mp hv with hv | hv
        · exact hpos v (List.mem_cons_of_mem u hv)
        · rw [List.mem_singleton.mp hv]; exact ht
    obtain ⟨d2, hd2, hfs2, hls2, hft2⟩ := entity_from_empty k u (rest ++ [(r, t)]) hid2 hpos2
    have hlast2 : ((u :: (rest ++ [(r, t)])).map Prod.snd).getLastD 0 = t := by
      rw [show u :: (rest ++ [(r, t)]) = (u :: rest) ++ [(r, t)] from rfl,
        List.map_append]
      rw [show List.map Prod.snd [(r, t)] = [t] from rfl]
      exact List.getLastD_concat _ _ _
    have e2 : d2.flightTime = (t : Int) - (u.2 : Int) := by
      rw [hft2, hls2, hlast2, hfs2]
    refine ⟨d2, hd2, by rw [hfs2, hfs], ?_, ?_⟩
    · rw [hft, hls, hfs, e2]
      have : ((((u :: rest).map Prod.snd).getLastD 0 : Nat) : Int) ≤ (t : Int) := by
        exact_mod_cast hle
      omega
    · rw [e2, hfs]
  · intro r t hkr hlt
    have ht : 0 < t := lt_of_le_of_lt (Nat.zero_le _) hlt
    have hid2 : ∀ v ∈ u :: (rest ++ [(r, t)]), resolveId v.1 = some k := by
      intro v hv
      rcases List.mem_cons.mp hv with hv | hv
      · rw [hv]; exact hid u (List.mem_cons_self u rest)
      · rcases List.mem_append.mp hv with hv | hv
        · exact hid v (List.mem_cons_of_mem u hv)
        · rw [List.mem_singleton.mp hv]; exact hkr
    have hpos2 : ∀ v ∈ u :: (rest ++ [(r, t)]), 0 < v.2 := by
      intro v hv
      rcases List.mem_cons.mp hv with hv | hv
      · rw [hv]; exact hpos u (List.mem_cons_self u rest)
      · rcases List.mem_append.mp hv with hv | hv
        · exact hpos v (List.mem_cons_of_mem u hv)
        · rw [List.mem_singleton.mp hv]; exact ht
    obtain ⟨d2, hd2, hfs2, hls2, hft2⟩ := entity_from_empty k u (rest ++ [(r, t)]) hid2 hpos2
    have hlast2 : ((u :: (rest ++ [(r, t)])).map Prod.snd).getLastD 0 = t := by
      rw [show u :: (rest ++ [(r, t)]) = (u :: rest) ++ [(r, t)] from rfl,
        List.map_append]
      rw [show List.map Prod.snd [(r, t)] = [t] from rfl]
      exact List.getLastD_concat _ _ _
    have e2 : d2.flightTime = (t : Int) - (u.2 : Int) := by
      rw [hft2, hls2, hlast2, hfs2]
    refine ⟨d2, hd2, ?_⟩
    rw [e2]
    rw [hheadD] at hlt
    have : ((u.2 : Nat) : Int) < (t : Int) := by exact_mod_cast hlt
    omega

/-- Witness for C7: two sequential updates to `d1` at times 5 then 9 leave
a strictly positive flight time. -/
theorem c7_witness :
    ∃ d2, mapGet (applyUpdates ([(rBase, 5)] ++ [(rBase, 9)]) initialState).drones
        (some "d1") = some d2
      ∧ 0 < d2.flightTime := by
  obtain ⟨d, -, -, -, -, -, hstrict⟩ :=
    c7_first_seen_immutable_flight_time [(rBase, 5)] "d1" (by simp)
      (List.forall_mem_singleton.mpr (by decide))
      (List.forall_mem_singleton.mpr (by decide))
  exact hstrict rBase 9 (by decide) (by decide)
